import Mathlib

/-!
Verification of the event-routing core of the `wag` repository
(`src/gui/layer_stack.rs`, `src/gui/button.rs`, `src/gui/surface.rs`,
`src/gui/background.rs`, `src/error.rs`) against its specification.

The Rust code is shallowly embedded: every stateful component becomes a
Lean structure, every `async fn` becomes a pure function returning the
updated state together with an `Except` result, and the event streams
delivered by `async_event_streams` are modelled as explicit lists.
Effects that happened before an error are kept (state-passing), exactly
as in the source where `?` returns early but earlier mutations persist.
-/

namespace Wag

/-- Error type, from `src/error.rs` (`enum Error`).  The payloads of
`Spawn`/`StdIO`/`Windows` are opaque to the routing logic; they are
modelled by a `Nat` code. -/
inductive Error where
  | BadIndex : Error
  | Spawn : Nat → Error
  | StdIO : Nat → Error
  | Windows : Nat → Error
deriving DecidableEq, Repr

/-- Two-dimensional size, from `windows Foundation.Numerics.Vector2`.
The routing logic only stores and compares sizes, never does float
arithmetic on them, so the components are modelled as integers. -/
structure Vector2 where
  X : Int
  Y : Int
deriving DecidableEq, Repr

/-- Type `winit::event::ElementState`. -/
inductive ElementState where
  | Pressed : ElementState
  | Released : ElementState
deriving DecidableEq, Repr

/-- Type `winit::event::MouseButton` (the extra-button payload is a `Nat`). -/
inductive MouseButton where
  | Left : MouseButton
  | Right : MouseButton
  | Middle : MouseButton
  | Other : Nat → MouseButton
deriving DecidableEq, Repr

/-- Type `PanelEvent`, the UI event type routed by the layer stack.  The
variants used by `src/gui/layer_stack.rs` are `Resized` and
`MouseInput`; every further variant falls into the wildcard arm of
`translate_event` and is modelled by `Other`. -/
inductive PanelEvent where
  | Resized (size : Vector2) : PanelEvent
  | MouseInput (in_slot : Bool) (state : ElementState) (button : MouseButton) : PanelEvent
  | Other (tag : Nat) : PanelEvent
deriving DecidableEq, Repr

/-- A child layer of a `LayerStack`: an `Arc<dyn Panel>` as the stack
sees it.  `pid` is the panel's `id()` (an `Identity`); `handler` is the
panel's `on_event_ref` behaviour, abstracted to its result, since the
stack only awaits the call and propagates its `Result`. -/
structure Layer where
  pid : Nat
  handler : PanelEvent → Except Error Unit

/-- State of a `LayerStack` (`src/gui/layer_stack.rs`): the
`ContainerVisual`'s size, the ordered layer list (`Core.layers`), and
the outward `panel_events` stream modelled as the list of events emitted
so far. -/
structure LayerStack where
  containerSize : Vector2
  layers : List Layer
  panelEvents : List PanelEvent

/-- Rust `LayerStack::push_panel`: `attach` inserts the panel's frame into
the stack's container (the `attach` helper lives in the repository's
`gui` module root, not under `src/`; per §6 of the spec it only inserts
a child handle and is modelled as successful), then the panel is pushed
onto the back of `Core.layers`. -/
def LayerStack.push_panel (s : LayerStack) (l : Layer) : LayerStack :=
  { s with layers := s.layers ++ [l] }

/-- Rust `LayerStack::remove_panel`: find the first layer whose `id()` equals
the argument's `id()`; if found, detach it (modelled as successful, as
for `attach`) and remove it at that index; otherwise do nothing.  The
call returns `Ok(())` in both cases. -/
def LayerStack.remove_panel (s : LayerStack) (pid : Nat) : LayerStack × Except Error Unit :=
  match (s.layers.findIdx? (fun v => v.pid = pid)) with
  | some index => ({ s with layers := s.layers.eraseIdx index }, Except.ok ())
  | none => (s, Except.ok ())

/-- Rust `LayerStack::translate_event_to_all_layers`: deliver the event to
each layer in list order, `?`-propagating the first error.  The first
component of the result is the delivery trace: the `id()`s of the
layers whose `on_event_ref` was actually invoked, in call order. -/
def translate_event_to_all_layers :
    List Layer → PanelEvent → List Nat × Except Error Unit
  | [], _ => ([], Except.ok ())
  | l :: rest, e =>
    match l.handler e with
    | Except.error err => ([l.pid], Except.error err)
    | Except.ok _ =>
      let (trace, r) := translate_event_to_all_layers rest e
      (l.pid :: trace, r)

/-- Rust `LayerStack::translate_event_to_top_layer`: deliver the event to the
first layer of the list if any ( `layers().first_mut()` ), otherwise do
nothing and succeed. -/
def translate_event_to_top_layer :
    List Layer → PanelEvent → List Nat × Except Error Unit
  | [], _ => ([], Except.ok ())
  | l :: _, e =>
    match l.handler e with
    | Except.error err => ([l.pid], Except.error err)
    | Except.ok _ => ([l.pid], Except.ok ())

/-- Rust `LayerStack::translate_event`: `Resized` first sets the container's
size, then goes to all layers; `MouseInput` goes to the top layer only;
everything else goes to all layers.  Returns the new state, the
delivery trace and the propagated result. -/
def LayerStack.translate_event (s : LayerStack) (e : PanelEvent) :
    LayerStack × List Nat × Except Error Unit :=
  match e with
  | PanelEvent.Resized size =>
    let s' := { s with containerSize := size }
    let (trace, r) := translate_event_to_all_layers s.layers e
    (s', trace, r)
  | PanelEvent.MouseInput _ _ _ =>
    let (trace, r) := translate_event_to_top_layer s.layers e
    (s, trace, r)
  | PanelEvent.Other _ =>
    let (trace, r) := translate_event_to_all_layers s.layers e
    (s, trace, r)

/-- Rust `EventSinkExt<PanelEvent>::on_event` for `LayerStack`: run
`translate_event`, `?`-propagating its error; on success re-emit the
same event on the stack's own `panel_events` stream and return `Ok`. -/
def LayerStack.on_event (s : LayerStack) (e : PanelEvent) :
    LayerStack × List Nat × Except Error Unit :=
  let (s', trace, r) := s.translate_event e
  match r with
  | Except.ok _ => ({ s' with panelEvents := s'.panelEvents ++ [e] }, trace, Except.ok ())
  | Except.error err => (s', trace, Except.error err)

/-- Type `ButtonEvent` (`src/gui/button.rs`). -/
inductive ButtonEvent where
  | Press : ButtonEvent
  | Release (in_slot : Bool) : ButtonEvent
deriving DecidableEq, Repr

/-- A `ButtonSkin` as the button sees it: the skin is a Panel that is an
event sink for both `PanelEvent` and `ButtonEvent`; the button only
awaits the calls and propagates their results. -/
structure ButtonSkin where
  onPanelEvent : PanelEvent → Except Error Unit
  onButtonEvent : ButtonEvent → Except Error Unit

/-- State of a `Button` (`src/gui/button.rs`): the `pressed` flag of
`Core`, the outward `button_events` and `panel_events` streams modelled
as the lists of events emitted so far. -/
structure Button where
  pressed : Bool
  buttonEvents : List ButtonEvent
  panelEvents : List PanelEvent

/-- Rust `Core::press`: set `pressed` to true, deliver `ButtonEvent::Press`
to the skin (`?`-propagating its error, with the flag already set), then
emit `Press` on `button_events`. -/
def Core.press (skin : ButtonSkin) (s : Button) : Button × Except Error Unit :=
  let s' := { s with pressed := true }
  match skin.onButtonEvent ButtonEvent.Press with
  | Except.error err => (s', Except.error err)
  | Except.ok _ =>
    ({ s' with buttonEvents := s'.buttonEvents ++ [ButtonEvent.Press] }, Except.ok ())

/-- Rust `Core::release`: set `pressed` to false, deliver
`ButtonEvent::Release(in_slot)` to the skin (`?`-propagating its error),
then emit `Release(in_slot)` on `button_events`. -/
def Core.release (skin : ButtonSkin) (in_slot : Bool) (s : Button) :
    Button × Except Error Unit :=
  let s' := { s with pressed := false }
  match skin.onButtonEvent (ButtonEvent.Release in_slot) with
  | Except.error err => (s', Except.error err)
  | Except.ok _ =>
    ({ s' with buttonEvents := s'.buttonEvents ++ [ButtonEvent.Release in_slot] },
     Except.ok ())

/-- Rust `EventSinkExt<PanelEvent>::on_event` for `Button`: forward the panel
event to the skin (`?`-propagating), re-emit it on `panel_events`, then
for a left-button `MouseInput`: on `Pressed` with `in_slot` run
`Core::press`; on `Released` when `is_pressed()` run
`Core::release(in_slot)`; otherwise do nothing. -/
def Button.on_event (skin : ButtonSkin) (s : Button) (e : PanelEvent) :
    Button × Except Error Unit :=
  match skin.onPanelEvent e with
  | Except.error err => (s, Except.error err)
  | Except.ok _ =>
    let s' := { s with panelEvents := s.panelEvents ++ [e] }
    match e with
    | PanelEvent.MouseInput in_slot state button =>
      if button = MouseButton.Left then
        if state = ElementState.Pressed then
          if in_slot then Core.press skin s' else (s', Except.ok ())
        else if state = ElementState.Released then
          if s'.pressed then Core.release skin in_slot s' else (s', Except.ok ())
        else (s', Except.ok ())
      else (s', Except.ok ())
    | _ => (s', Except.ok ())

/-- Type `SurfaceEvent` (`src/gui/surface.rs`). -/
inductive SurfaceEvent where
  | Redraw (size : Vector2) : SurfaceEvent
deriving DecidableEq, Repr

/-- Modelled from the spec: the `EventStreams` bus of the external
`async_event_streams` crate is not under `src/`.  Per §4.2 a
subscriber's queue holds the not-yet-consumed occurrences in FIFO
order; `clear()` atomically discards every queued item. -/
def EventStreams.clear (_q : List SurfaceEvent) : List SurfaceEvent := []

/-- Modelled from the spec: per §4.2, `post_event` enqueues the event at
the back of every registered subscriber queue without suspending. -/
def EventStreams.post_event (q : List SurfaceEvent) (e : SurfaceEvent) :
    List SurfaceEvent := q ++ [e]

/-- State of a `Surface` (`src/gui/surface.rs`): the sprite visual's
size, one subscriber's pending `surface_events` queue, and the outward
`panel_events` stream modelled as the list of events emitted so far. -/
structure Surface where
  spriteSize : Vector2
  surfaceQueue : List SurfaceEvent
  panelEvents : List PanelEvent

/-- Rust `EventSinkExt<PanelEvent>::on_event` for `Surface`: on `Resized`,
set the sprite visual's size, `clear()` the `surface_events` queues and
`post_event` a single `Redraw` with the new size; then (for every event
kind) re-emit the panel event on `panel_events`. -/
def Surface.on_event (s : Surface) (e : PanelEvent) : Surface × Except Error Unit :=
  let s' :=
    match e with
    | PanelEvent.Resized size =>
      { s with
        spriteSize := size
        surfaceQueue :=
          EventStreams.post_event (EventStreams.clear s.surfaceQueue)
            (SurfaceEvent.Redraw size) }
    | _ => s
  ({ s' with panelEvents := s'.panelEvents ++ [e] }, Except.ok ())

/-- Modelled from the spec: the `Keeper`/`Tag` pair of the external
`async_object` crate is not under `src/`.  Per §4.1 the Exclusive-Owner
Cell owns exactly one value; once the cell is destroyed the value is
gone.  A cell is therefore modelled as `Option V`: `some v` while
alive, `none` once destroyed. -/
abbrev Cell (V : Type) : Type := Option V

/-- Modelled from the spec: the terminal failure of a Tag operation on a
destroyed Exclusive-Owner Cell (§4.1, §7). -/
inductive ActorGone where
  | actorGone : ActorGone
deriving DecidableEq, Repr

/-- Modelled from the spec: `Tag.read(f)` applies `f` to the current
value under a read lock and fails with `ActorGone` if the cell has been
destroyed (`async_call` in the source's callers). -/
def Tag.read {V R : Type} (cell : Cell V) (f : V → R) : Except ActorGone R :=
  match cell with
  | none => Except.error ActorGone.actorGone
  | some v => Except.ok (f v)

/-- Modelled from the spec: `Tag.mutate(f)` applies a fallible `f` under
the write lock; the cell-gone failure is the outer `Except` layer and
the caller-supplied failure `E` the inner one, so the two are
distinguishable by construction (`async_call_mut` in the source's
callers). -/
def Tag.mutate {V R E : Type} (cell : Cell V) (f : V → Except E (R × V)) :
    Except ActorGone (Except E (R × V)) :=
  match cell with
  | none => Except.error ActorGone.actorGone
  | some v => Except.ok (f v)

/-- State of a `Background` (`src/gui/background.rs`): the fields the
`BackgroundTag` operations touch.  `redraw` only drives the rendering
backend and is modelled as successful (the backend is out of scope per
§1 of the spec). -/
structure Background where
  size : Vector2
  round_corners : Bool
  color : Nat

/-- Rust `Background::set_color`: store the colour and redraw. -/
def Background.set_color (b : Background) (c : Nat) : Except Error (Unit × Background) :=
  Except.ok ((), { b with color := c })

/-- Rust `Background::set_size`: set the shape's size and redraw. -/
def Background.set_size (b : Background) (size : Vector2) :
    Except Error (Unit × Background) :=
  Except.ok ((), { b with size := size })

/-- The flattening performed by the `?` after `async_call` in
`BackgroundTag`'s methods: the cell-gone failure is converted into the
public `crate::Error`.  `error.rs` declares no ActorGone-like variant
and no `From` impl for it, and the conversion code is not under `src/`,
so which of the four public variants the cell-gone failure lands in is
kept as a parameter `conv`; nothing below depends on the choice. -/
def flatten1 {R : Type} (conv : ActorGone → Error) (r : Except ActorGone R) :
    Except Error R :=
  match r with
  | Except.error g => Except.error (conv g)
  | Except.ok v => Except.ok v

/-- The flattening performed by the `await??` in
`BackgroundTag::set_color`/`set_size`: the first `?` converts the
cell-gone failure into `crate::Error` via `conv`, the second propagates
the closure's own `crate::Error` — both causes end up in the same
public error type. -/
def flatten2 {R : Type} (conv : ActorGone → Error)
    (r : Except ActorGone (Except Error R)) : Except Error R :=
  match r with
  | Except.error g => Except.error (conv g)
  | Except.ok (Except.error e) => Except.error e
  | Except.ok (Except.ok v) => Except.ok v

/-- Rust `BackgroundTag::color`:
`Ok(self.0.async_call(|v| v.color).await?)` — the `?` flattens the
cell-gone failure into `crate::Error`. -/
def BackgroundTag.color (conv : ActorGone → Error) (cell : Cell Background) :
    Except Error Nat :=
  flatten1 conv (Tag.read cell (fun v => v.color))

/-- Rust `BackgroundTag::set_color`:
`Ok(self.0.async_call_mut(|v| v.set_color(color)).await??)` — the `??`
flattens both the cell-gone failure and the closure's failure into
`crate::Error`. -/
def BackgroundTag.set_color (conv : ActorGone → Error) (cell : Cell Background)
    (c : Nat) : Except Error (Unit × Background) :=
  flatten2 conv (Tag.mutate cell (fun v => v.set_color c))

/-- Rust `BackgroundTag::set_size`:
`Ok(self.0.async_call_mut(|v| v.set_size(size)).await??)` — the `??`
flattens both the cell-gone failure and the closure's failure into
`crate::Error`. -/
def BackgroundTag.set_size (conv : ActorGone → Error) (cell : Cell Background)
    (size : Vector2) : Except Error (Unit × Background) :=
  flatten2 conv (Tag.mutate cell (fun v => v.set_size size))

/-- A concrete live `Background` value for counterexample inputs. -/
def initialBackground : Background :=
  { size := { X := 0, Y := 0 }, round_corners := false, color := 0 }

/-- A layer whose `on_event_ref` always succeeds (a well-behaved panel,
used for concrete test stacks). -/
def okLayer (n : Nat) : Layer :=
  { pid := n, handler := fun _ => Except.ok () }

/-- A layer whose `on_event_ref` always fails with `Error::BadIndex`
(a failing panel, used for concrete test stacks). -/
def failLayer (n : Nat) : Layer :=
  { pid := n, handler := fun _ => Except.error Error.BadIndex }

/-- A freshly built empty stack (no layers, nothing emitted yet). -/
def emptyStack : LayerStack :=
  { containerSize := { X := 0, Y := 0 }, layers := [], panelEvents := [] }

/-- A three-layer stack whose middle layer fails. -/
def stack3 : LayerStack :=
  { containerSize := { X := 0, Y := 0 }
    layers := [okLayer 1, failLayer 2, okLayer 3]
    panelEvents := [] }

/-- A three-layer stack `[top, mid, bottom]` of well-behaved panels. -/
def stackTMB : LayerStack :=
  { containerSize := { X := 0, Y := 0 }
    layers := [okLayer 10, okLayer 20, okLayer 30]
    panelEvents := [] }

/-- A skin whose handlers always succeed. -/
def okSkin : ButtonSkin :=
  { onPanelEvent := fun _ => Except.ok (), onButtonEvent := fun _ => Except.ok () }

/-- A button in the `Idle` state with empty streams. -/
def idleButton : Button :=
  { pressed := false, buttonEvents := [], panelEvents := [] }

/-- A button in the `Pressed` state with empty streams. -/
def pressedButton : Button :=
  { pressed := true, buttonEvents := [], panelEvents := [] }

/-- A left-button press whose inside-target flag is true. -/
def pressEvent : PanelEvent :=
  PanelEvent.MouseInput true ElementState.Pressed MouseButton.Left

/-- A left-button release with inside-target flag `b`. -/
def releaseEvent (b : Bool) : PanelEvent :=
  PanelEvent.MouseInput b ElementState.Released MouseButton.Left

theorem translate_all_ok (ls : List Layer) (e : PanelEvent)
    (h : ∀ l ∈ ls, l.handler e = Except.ok ()) :
    translate_event_to_all_layers ls e = (ls.map (fun l => l.pid), Except.ok ()) := by
  induction ls with
  | nil => rfl
  | cons l rest ih =>
    have hl : l.handler e = Except.ok () := h l (by simp)
    have hrest := ih (fun x hx => h x (by simp [hx]))
    simp [translate_event_to_all_layers, hl, hrest]

theorem translate_all_fail (ls : List Layer) (e : PanelEvent) (k : Nat) (l : Layer)
    (err : Error) (hk : ls[k]? = some l) (hl : l.handler e = Except.error err)
    (hbefore : ∀ j, j < k → ∀ lj, ls[j]? = some lj → lj.handler e = Except.ok ()) :
    translate_event_to_all_layers ls e =
      ((ls.take (k + 1)).map (fun x => x.pid), Except.error err) := by
  induction ls generalizing k with
  | nil => simp at hk
  | cons hd rest ih =>
    cases k with
    | zero =>
      simp only [List.getElem?_cons_zero, Option.some.injEq] at hk
      subst hk
      simp [translate_event_to_all_layers, hl]
    | succ n =>
      have hhd : hd.handler e = Except.ok () :=
        hbefore 0 (Nat.succ_pos _) hd (by simp)
      have hrest := ih n (by simpa using hk)
        (fun j hj lj hlj =>
          hbefore (j + 1) (Nat.succ_lt_succ hj) lj (by simpa using hlj))
      simp [translate_event_to_all_layers, hhd, hrest]

theorem translate_event_resized (s : LayerStack) (sz : Vector2) :
    s.translate_event (PanelEvent.Resized sz) =
      ({ s with containerSize := sz },
        translate_event_to_all_layers s.layers (PanelEvent.Resized sz)) := by
  rcases h : translate_event_to_all_layers s.layers (PanelEvent.Resized sz) with ⟨t, r⟩
  simp [LayerStack.translate_event, h]

theorem on_event_parts (s : LayerStack) (e : PanelEvent) :
    (s.on_event e).1.containerSize = (s.translate_event e).1.containerSize ∧
    (s.on_event e).2 =
      ((s.translate_event e).2.1, (s.translate_event e).2.2) := by
  rcases h : s.translate_event e with ⟨s1, t, r⟩
  cases r <;> simp [LayerStack.on_event, h]

/-- C2: handling a `Resized` event first sets the stack's own container
to the given size, then delivers the event to every layer in list order:
if every layer succeeds, all of them are called in order and `Ok` is
returned; if some layer fails while all earlier ones succeed, exactly
the layers up to and including the failing one are called and its error
is returned to the caller. -/
theorem c2_resized_broadcast_fail_fast (s : LayerStack) (sz : Vector2) :
    ((s.on_event (PanelEvent.Resized sz)).1.containerSize = sz) ∧
    ((∀ l ∈ s.layers, l.handler (PanelEvent.Resized sz) = Except.ok ()) →
      (s.on_event (PanelEvent.Resized sz)).2.1 = s.layers.map (fun l => l.pid) ∧
      (s.on_event (PanelEvent.Resized sz)).2.2 = Except.ok ()) ∧
    (∀ k l err, s.layers[k]? = some l →
      l.handler (PanelEvent.Resized sz) = Except.error err →
      (∀ j, j < k → ∀ lj, s.layers[j]? = some lj →
        lj.handler (PanelEvent.Resized sz) = Except.ok ()) →
      (s.on_event (PanelEvent.Resized sz)).2.1 =
        (s.layers.take (k + 1)).map (fun x => x.pid) ∧
      (s.on_event (PanelEvent.Resized sz)).2.2 = Except.error err) := by
  obtain ⟨hc, ht⟩ := on_event_parts s (PanelEvent.Resized sz)
  rw [translate_event_resized] at hc ht
  refine ⟨hc, ?_, ?_⟩
  · intro hall
    rw [translate_all_ok s.layers _ hall] at ht
    exact ⟨congrArg Prod.fst ht, congrArg (fun p => p.2) ht⟩
  · intro k l err hk hl hbefore
    rw [translate_all_fail s.layers _ k l err hk hl hbefore] at ht
    exact ⟨congrArg Prod.fst ht, congrArg (fun p => p.2) ht⟩

/-- Witness for C2 on a concrete three-layer stack whose middle layer
fails: the container is resized, layers 1 and 2 are called in order,
layer 3 is not, and the middle layer's error is returned. -/
theorem c2_resized_broadcast_fail_fast_witness :
    ((stack3.on_event (PanelEvent.Resized { X := 100, Y := 200 })).1.containerSize
        = { X := 100, Y := 200 }) ∧
    ((stack3.on_event (PanelEvent.Resized { X := 100, Y := 200 })).2.1 = [1, 2]) ∧
    ((stack3.on_event (PanelEvent.Resized { X := 100, Y := 200 })).2.2 =
        Except.error Error.BadIndex) := by
  obtain ⟨hc, -, hfail⟩ :=
    c2_resized_broadcast_fail_fast stack3 { X := 100, Y := 200 }
  have hf := hfail 1 (failLayer 2) Error.BadIndex (by rfl) (by rfl)
    (by
      intro j hj lj hlj
      have hj0 : j = 0 := Nat.lt_one_iff.mp hj
      subst hj0
      simp only [stack3, List.getElem?_cons_zero, Option.some.injEq] at hlj
      subst hlj
      rfl)
  exact ⟨hc, by rw [hf.1]; rfl, hf.2⟩

theorem translate_event_mouse (s : LayerStack) (b : Bool) (st : ElementState)
    (btn : MouseButton) :
    s.translate_event (PanelEvent.MouseInput b st btn) =
      (s, translate_event_to_top_layer s.layers (PanelEvent.MouseInput b st btn)) := by
  rcases h : translate_event_to_top_layer s.layers (PanelEvent.MouseInput b st btn)
    with ⟨t, r⟩
  simp [LayerStack.translate_event, h]

theorem translate_top_cons (l : Layer) (rest : List Layer) (e : PanelEvent) :
    (translate_event_to_top_layer (l :: rest) e).1 = [l.pid] := by
  cases h : l.handler e <;> simp [translate_event_to_top_layer, h]

theorem push_panel_foldl (s : LayerStack) (ps : List Layer) :
    (ps.foldl LayerStack.push_panel s).layers = s.layers ++ ps := by
  induction ps generalizing s with
  | nil => simp
  | cons p rest ih =>
    simp [List.foldl_cons, ih, LayerStack.push_panel]

/-- C1 counterexample: pushing the panels with ids 1 then 2 onto an empty
stack leaves the layer list `[1, 2]` in push order, yet a pointer event
is delivered to the layer with id 1, the FIRST pushed panel — not to the
most recently pushed one (id 2), refuting the claim. -/
theorem c1_counterexample_first_pushed_receives :
    (((emptyStack.push_panel (okLayer 1)).push_panel (okLayer 2)).layers.map
        (fun l => l.pid) = [1, 2]) ∧
    ((((emptyStack.push_panel (okLayer 1)).push_panel (okLayer 2)).on_event
        pressEvent).2.1 = [1]) ∧
    (([1] : List Nat) ≠ [2]) := by
  refine ⟨rfl, rfl, by decide⟩

/-- C1 amended: after any sequence of `push_panel` calls on an empty
stack, the layer list is exactly the push order and the single layer to
which pointer/targeted-input events are delivered by `on_event` is the
FIRST pushed panel (list position 0), not the most recently pushed
one. -/
theorem c1_amended_first_pushed_is_top (s : LayerStack) (p : Layer)
    (ps : List Layer) (b : Bool) (st : ElementState) (btn : MouseButton)
    (hs : s.layers = []) :
    (((p :: ps).foldl LayerStack.push_panel s).layers = p :: ps) ∧
    ((((p :: ps).foldl LayerStack.push_panel s).on_event
        (PanelEvent.MouseInput b st btn)).2.1 = [p.pid]) := by
  have hlayers : ((p :: ps).foldl LayerStack.push_panel s).layers = p :: ps := by
    rw [push_panel_foldl, hs]; rfl
  refine ⟨hlayers, ?_⟩
  obtain ⟨-, ht⟩ := on_event_parts ((p :: ps).foldl LayerStack.push_panel s)
    (PanelEvent.MouseInput b st btn)
  have : ((((p :: ps).foldl LayerStack.push_panel s).on_event
      (PanelEvent.MouseInput b st btn)).2).1 =
      (translate_event_to_top_layer (p :: ps) (PanelEvent.MouseInput b st btn)).1 := by
    rw [ht, translate_event_mouse, hlayers]
  rw [this, translate_top_cons]

/-- Witness for C1's amended statement: pushing panels 1, 2, 3 onto an
empty stack delivers a concrete pointer press to panel 1 only. -/
theorem c1_amended_first_pushed_is_top_witness :
    (([okLayer 1, okLayer 2, okLayer 3].foldl LayerStack.push_panel
        emptyStack).layers = [okLayer 1, okLayer 2, okLayer 3]) ∧
    ((([okLayer 1, okLayer 2, okLayer 3].foldl LayerStack.push_panel
        emptyStack).on_event (PanelEvent.MouseInput true ElementState.Pressed
          MouseButton.Left)).2.1 = [1]) :=
  c1_amended_first_pushed_is_top emptyStack (okLayer 1) [okLayer 2, okLayer 3]
    true ElementState.Pressed MouseButton.Left rfl

/-- C3: a pointer/mouse-input event is delivered to exactly one layer,
the first in the list, and no other layer is called; when the layer
list is empty nothing is delivered and `on_event` returns success. -/
theorem c3_mouse_first_layer_only (s : LayerStack) (b : Bool)
    (st : ElementState) (btn : MouseButton) :
    (s.layers = [] →
      (s.on_event (PanelEvent.MouseInput b st btn)).2.1 = [] ∧
      (s.on_event (PanelEvent.MouseInput b st btn)).2.2 = Except.ok ()) ∧
    (∀ l rest, s.layers = l :: rest →
      (s.on_event (PanelEvent.MouseInput b st btn)).2.1 = [l.pid]) := by
  obtain ⟨-, ht⟩ := on_event_parts s (PanelEvent.MouseInput b st btn)
  rw [translate_event_mouse] at ht
  constructor
  · intro hnil
    rw [hnil] at ht
    exact ⟨congrArg Prod.fst ht, congrArg (fun p => p.2) ht⟩
  · intro l rest hcons
    rw [hcons] at ht
    have := congrArg Prod.fst ht
    rw [this, translate_top_cons]

/-- Witness for C3: a pointer press on the concrete stack
`[top, mid, bottom]` calls only the top layer (id 10); on the empty
stack nothing is delivered and the call succeeds. -/
theorem c3_mouse_first_layer_only_witness :
    ((stackTMB.on_event (PanelEvent.MouseInput true ElementState.Pressed
        MouseButton.Left)).2.1 = [10]) ∧
    ((emptyStack.on_event (PanelEvent.MouseInput true ElementState.Pressed
        MouseButton.Left)).2.1 = []) ∧
    ((emptyStack.on_event (PanelEvent.MouseInput true ElementState.Pressed
        MouseButton.Left)).2.2 = Except.ok ()) := by
  have htop := (c3_mouse_first_layer_only stackTMB true ElementState.Pressed
    MouseButton.Left).2 (okLayer 10) [okLayer 20, okLayer 30] rfl
  have hempty := (c3_mouse_first_layer_only emptyStack true ElementState.Pressed
    MouseButton.Left).1 rfl
  exact ⟨htop, hempty.1, hempty.2⟩

theorem translate_event_keeps_streams (s : LayerStack) (e : PanelEvent) :
    (s.translate_event e).1.panelEvents = s.panelEvents := by
  cases e with
  | Resized size =>
    rcases h : translate_event_to_all_layers s.layers (PanelEvent.Resized size)
      with ⟨t, r⟩
    simp [LayerStack.translate_event, h]
  | MouseInput b st btn =>
    rw [translate_event_mouse]
  | Other n =>
    rcases h : translate_event_to_all_layers s.layers (PanelEvent.Other n)
      with ⟨t, r⟩
    simp [LayerStack.translate_event, h]

/-- C7: `on_event` returns exactly the internal routing result, re-emits
the event on the stack's outward `panel_events` stream precisely when
routing succeeded, and emits nothing when a layer's handler failed —
the layer error is what the caller gets back. -/
theorem c7_reemit_iff_routing_ok (s : LayerStack) (e : PanelEvent) :
    ((s.on_event e).2.2 = (s.translate_event e).2.2) ∧
    ((s.translate_event e).2.2 = Except.ok () →
      (s.on_event e).1.panelEvents = s.panelEvents ++ [e]) ∧
    (∀ err, (s.translate_event e).2.2 = Except.error err →
      (s.on_event e).1.panelEvents = s.panelEvents) := by
  rcases h : s.translate_event e with ⟨s1, t, r⟩
  have hkeep : s1.panelEvents = s.panelEvents := by
    have hk := translate_event_keeps_streams s e
    rw [h] at hk
    exact hk
  cases r with
  | ok u =>
    refine ⟨by simp [LayerStack.on_event, h], fun _ => ?_, fun err herr => by simp at herr⟩
    simp [LayerStack.on_event, h, hkeep]
  | error err =>
    refine ⟨by simp [LayerStack.on_event, h], fun hok => by simp at hok, fun e2 he2 => ?_⟩
    simp [LayerStack.on_event, h, hkeep]

/-- Witness for C7: a broadcast event on the all-succeeding stack is
re-emitted outward; on the stack with a failing middle layer nothing is
re-emitted and the layer's error is returned. -/
theorem c7_reemit_iff_routing_ok_witness :
    ((stackTMB.on_event (PanelEvent.Other 0)).1.panelEvents = [PanelEvent.Other 0]) ∧
    ((stack3.on_event (PanelEvent.Other 0)).1.panelEvents = []) ∧
    ((stack3.on_event (PanelEvent.Other 0)).2.2 = Except.error Error.BadIndex) := by
  obtain ⟨-, hok1, -⟩ := c7_reemit_iff_routing_ok stackTMB (PanelEvent.Other 0)
  obtain ⟨hr2, -, herr2⟩ := c7_reemit_iff_routing_ok stack3 (PanelEvent.Other 0)
  refine ⟨?_, ?_, ?_⟩
  · have := hok1 (by rfl)
    simpa [stackTMB] using this
  · exact herr2 Error.BadIndex (by rfl)
  · rw [hr2]; rfl

theorem button_press_eq (skin : ButtonSkin) (s : Button)
    (hp : skin.onPanelEvent pressEvent = Except.ok ())
    (hbp : skin.onButtonEvent ButtonEvent.Press = Except.ok ()) :
    Button.on_event skin s pressEvent =
      ({ pressed := true
         buttonEvents := s.buttonEvents ++ [ButtonEvent.Press]
         panelEvents := s.panelEvents ++ [pressEvent] }, Except.ok ()) := by
  simp only [pressEvent] at hp ⊢
  simp [Button.on_event, Core.press, hp, hbp]

theorem button_release_eq_pressed (skin : ButtonSkin) (s : Button) (b : Bool)
    (hsp : s.pressed = true)
    (hr : skin.onPanelEvent (releaseEvent b) = Except.ok ())
    (hbr : skin.onButtonEvent (ButtonEvent.Release b) = Except.ok ()) :
    Button.on_event skin s (releaseEvent b) =
      ({ pressed := false
         buttonEvents := s.buttonEvents ++ [ButtonEvent.Release b]
         panelEvents := s.panelEvents ++ [releaseEvent b] }, Except.ok ()) := by
  simp only [releaseEvent] at hr ⊢
  simp [Button.on_event, Core.release, hr, hbr, hsp]

theorem button_release_eq_idle (skin : ButtonSkin) (s : Button) (b : Bool)
    (hsp : s.pressed = false)
    (hr : skin.onPanelEvent (releaseEvent b) = Except.ok ()) :
    Button.on_event skin s (releaseEvent b) =
      ({ s with panelEvents := s.panelEvents ++ [releaseEvent b] }, Except.ok ()) := by
  simp only [releaseEvent] at hr ⊢
  simp [Button.on_event, hr, hsp]

/-- C4: from the Idle state, a qualifying left-button press (inside the
target) moves the button to Pressed and emits exactly one `Press`; the
following left-button release with inside flag `b` moves it back to
Idle and emits exactly one `Release b`, so the occurrence sequence is
`[Press, Release b]`; a release received while Idle changes nothing and
emits no occurrence. -/
theorem c4_button_state_machine (skin : ButtonSkin) (s : Button) (b : Bool)
    (hIdle : s.pressed = false)
    (hp : skin.onPanelEvent pressEvent = Except.ok ())
    (hr : skin.onPanelEvent (releaseEvent b) = Except.ok ())
    (hbp : skin.onButtonEvent ButtonEvent.Press = Except.ok ())
    (hbr : skin.onButtonEvent (ButtonEvent.Release b) = Except.ok ()) :
    ((Button.on_event skin s pressEvent).1.pressed = true) ∧
    ((Button.on_event skin s pressEvent).1.buttonEvents =
        s.buttonEvents ++ [ButtonEvent.Press]) ∧
    ((Button.on_event skin s pressEvent).2 = Except.ok ()) ∧
    ((Button.on_event skin (Button.on_event skin s pressEvent).1
        (releaseEvent b)).1.pressed = false) ∧
    ((Button.on_event skin (Button.on_event skin s pressEvent).1
        (releaseEvent b)).1.buttonEvents =
        s.buttonEvents ++ [ButtonEvent.Press, ButtonEvent.Release b]) ∧
    ((Button.on_event skin (Button.on_event skin s pressEvent).1
        (releaseEvent b)).2 = Except.ok ()) ∧
    ((Button.on_event skin s (releaseEvent b)).1.pressed = false) ∧
    ((Button.on_event skin s (releaseEvent b)).1.buttonEvents = s.buttonEvents) ∧
    ((Button.on_event skin s (releaseEvent b)).2 = Except.ok ()) := by
  have h1 := button_press_eq skin s hp hbp
  have h2 := button_release_eq_pressed skin (Button.on_event skin s pressEvent).1 b
    (by rw [h1]) hr hbr
  have h3 := button_release_eq_idle skin s b hIdle hr
  refine ⟨by rw [h1], by rw [h1], by rw [h1], by rw [h2], ?_, by rw [h2],
    by rw [h3]; exact hIdle, by rw [h3], by rw [h3]⟩
  rw [h2]
  simp [h1]

/-- Witness for C4 with a concrete always-succeeding skin and an Idle
button: press then release(inside=false) yields the occurrence sequence
`[Press, Release false]`, and a lone release emits nothing. -/
theorem c4_button_state_machine_witness :
    ((Button.on_event okSkin idleButton pressEvent).1.pressed = true) ∧
    ((Button.on_event okSkin (Button.on_event okSkin idleButton pressEvent).1
        (releaseEvent false)).1.buttonEvents =
        [ButtonEvent.Press, ButtonEvent.Release false]) ∧
    ((Button.on_event okSkin idleButton (releaseEvent false)).1.buttonEvents = []) := by
  obtain ⟨w1, -, -, -, w5, -, -, w8, -⟩ :=
    c4_button_state_machine okSkin idleButton false rfl rfl rfl rfl rfl
  exact ⟨w1, by simpa [idleButton] using w5, by simpa [idleButton] using w8⟩

/-- C10: a qualifying left-button press received while the button is
already Pressed runs the press transition again: the flag stays true,
one more `Press` occurrence is emitted, and two consecutive qualifying
presses emit the occurrence sequence `[Press, Press]`. -/
theorem c10_press_while_pressed (skin : ButtonSkin) (s : Button)
    (hPressed : s.pressed = true)
    (hp : skin.onPanelEvent pressEvent = Except.ok ())
    (hbp : skin.onButtonEvent ButtonEvent.Press = Except.ok ()) :
    ((Button.on_event skin s pressEvent).1.pressed = true) ∧
    ((Button.on_event skin s pressEvent).1.buttonEvents =
        s.buttonEvents ++ [ButtonEvent.Press]) ∧
    ((Button.on_event skin s pressEvent).2 = Except.ok ()) ∧
    ((Button.on_event skin (Button.on_event skin s pressEvent).1
        pressEvent).1.buttonEvents =
        s.buttonEvents ++ [ButtonEvent.Press, ButtonEvent.Press]) := by
  have h1 := button_press_eq skin s hp hbp
  have h2 := button_press_eq skin (Button.on_event skin s pressEvent).1 hp hbp
  refine ⟨by rw [h1], by rw [h1], by rw [h1], ?_⟩
  rw [h2]
  simp [h1]

/-- Witness for C10: with the always-succeeding skin, a second press on
an already-pressed concrete button leaves it pressed and appends a
second `Press` occurrence. -/
theorem c10_press_while_pressed_witness :
    ((Button.on_event okSkin pressedButton pressEvent).1.pressed = true) ∧
    ((Button.on_event okSkin (Button.on_event okSkin pressedButton pressEvent).1
        pressEvent).1.buttonEvents = [ButtonEvent.Press, ButtonEvent.Press]) := by
  obtain ⟨w1, -, -, w4⟩ :=
    c10_press_while_pressed okSkin pressedButton rfl rfl rfl
  exact ⟨w1, by simpa [pressedButton] using w4⟩

/-- C5 counterexample: under the bus semantics the claim itself invokes
(`clear()` once, then two `post_event` calls with no intervening read),
BOTH posted events stay queued: starting from a queue holding a stale
pre-clear event, the subscriber queue ends as
`[Redraw (50,50), Redraw (75,75)]`, two events — not exactly one. -/
theorem c5_counterexample_two_posts_two_events :
    (EventStreams.post_event
        (EventStreams.post_event
          (EventStreams.clear [SurfaceEvent.Redraw { X := 1, Y := 1 }])
          (SurfaceEvent.Redraw { X := 50, Y := 50 }))
        (SurfaceEvent.Redraw { X := 75, Y := 75 }) =
      [SurfaceEvent.Redraw { X := 50, Y := 50 },
       SurfaceEvent.Redraw { X := 75, Y := 75 }]) ∧
    ([SurfaceEvent.Redraw { X := 50, Y := 50 },
      SurfaceEvent.Redraw { X := 75, Y := 75 }].length ≠ 1) := by
  exact ⟨rfl, by decide⟩

/-- C5 amended: handling a `Resized` event clears all not-yet-consumed
queued `SurfaceEvent`s and posts a single `Redraw` with the new size
(the clear and the post happen together per `Resized`); hence after
handling `Resized (50,50)` and then `Resized (75,75)` with no
intervening read, the subscriber queue holds exactly one `Redraw`, with
size `(75,75)`, and no event queued before the clear survives. -/
theorem c5_amended_resize_coalesces (s : Surface) (sz : Vector2) :
    ((s.on_event (PanelEvent.Resized sz)).1.surfaceQueue =
        [SurfaceEvent.Redraw sz]) ∧
    ((s.on_event (PanelEvent.Resized sz)).1.spriteSize = sz) ∧
    (((s.on_event (PanelEvent.Resized { X := 50, Y := 50 })).1.on_event
        (PanelEvent.Resized { X := 75, Y := 75 })).1.surfaceQueue =
      [SurfaceEvent.Redraw { X := 75, Y := 75 }]) := by
  refine ⟨?_, ?_, ?_⟩ <;>
    simp [Surface.on_event, EventStreams.clear, EventStreams.post_event]

theorem findIdx?_none_of_no_match (p : Layer → Bool) (ls : List Layer)
    (h : ∀ l ∈ ls, p l = false) : ls.findIdx? p = none := by
  induction ls with
  | nil => rfl
  | cons hd rest ih =>
    have hhd := h hd (by simp)
    simp [List.findIdx?, hhd]
    exact fun l hl => h l (by simp [hl])

theorem eraseIdx_take_drop (ls : List Layer) (i : Nat) :
    ls.eraseIdx i = ls.take i ++ ls.drop (i + 1) := by
  induction ls generalizing i with
  | nil => simp [List.eraseIdx]
  | cons hd rest ih =>
    cases i with
    | zero => simp [List.eraseIdx]
    | succ n => simp [List.eraseIdx, ih]

/-- C6: `remove_panel` always returns `Ok`; when no layer has the given
Identity the stack is left exactly as it was (silent no-op); when the
lookup finds the layer at index `i`, the new layer list is the old one
with exactly position `i` removed — the layers before and after keep
their relative order. -/
theorem c6_remove_panel_by_identity (s : LayerStack) (pid : Nat) :
    ((s.remove_panel pid).2 = Except.ok ()) ∧
    ((∀ l ∈ s.layers, l.pid ≠ pid) → (s.remove_panel pid).1 = s) ∧
    (∀ i, s.layers.findIdx? (fun v => v.pid = pid) = some i →
      (s.remove_panel pid).1.layers = s.layers.take i ++ s.layers.drop (i + 1)) := by
  refine ⟨?_, ?_, ?_⟩
  · cases h : s.layers.findIdx? (fun v => v.pid = pid) <;>
      simp [LayerStack.remove_panel, h]
  · intro hnone
    have h : s.layers.findIdx? (fun v => v.pid = pid) = none :=
      findIdx?_none_of_no_match _ _ (fun l hl => by
        simp only [decide_eq_false_iff_not]
        exact hnone l hl)
    simp [LayerStack.remove_panel, h]
  · intro i hi
    simp [LayerStack.remove_panel, hi, eraseIdx_take_drop]

/-- Witness for C6 on the concrete three-layer stack [1, 2, 3]: removing
id 2 yields the layer list [1, 3] with the order of the rest preserved,
and removing the absent id 5 leaves the stack untouched and succeeds. -/
theorem c6_remove_panel_by_identity_witness :
    ((stack3.remove_panel 2).1.layers.map (fun l => l.pid) = [1, 3]) ∧
    ((stack3.remove_panel 5).1 = stack3) ∧
    ((stack3.remove_panel 5).2 = Except.ok ()) := by
  obtain ⟨-, -, hfound⟩ := c6_remove_panel_by_identity stack3 2
  obtain ⟨hok5, hnoop, -⟩ := c6_remove_panel_by_identity stack3 5
  refine ⟨?_, ?_, hok5⟩
  · rw [hfound 1 (by rfl)]
    rfl
  · exact hnoop (by decide)

/-- C9 counterexample: for each of the four variant families of the
public `crate::Error` — every value the absent flattening could assign
to the cell-gone failure — `BackgroundTag::set_color` on the destroyed
cell returns a value identical to that of the same `??`-flattened
mutation on a live cell whose caller-supplied closure fails with that
very error; the two causes produce equal results at the public API
(which carries no ActorGone variant), so a caller of the named
operations cannot tell them apart. -/
theorem c9_counterexample_flattened_error_collision :
    (BackgroundTag.set_color (fun _ => Error.BadIndex) none 0 =
      flatten2 (fun _ => Error.BadIndex) (Tag.mutate (some initialBackground)
        (fun _ => Except.error Error.BadIndex))) ∧
    (BackgroundTag.set_color (fun _ => Error.Spawn 0) none 0 =
      flatten2 (fun _ => Error.Spawn 0) (Tag.mutate (some initialBackground)
        (fun _ => Except.error (Error.Spawn 0)))) ∧
    (BackgroundTag.set_color (fun _ => Error.StdIO 0) none 0 =
      flatten2 (fun _ => Error.StdIO 0) (Tag.mutate (some initialBackground)
        (fun _ => Except.error (Error.StdIO 0)))) ∧
    (BackgroundTag.set_color (fun _ => Error.Windows 0) none 0 =
      flatten2 (fun _ => Error.Windows 0) (Tag.mutate (some initialBackground)
        (fun _ => Except.error (Error.Windows 0)))) ∧
    (BackgroundTag.set_color (fun _ => Error.BadIndex) none 0 =
      Except.error Error.BadIndex) := by
  exact ⟨rfl, rfl, rfl, rfl, rfl⟩

/-- C9 amended: once the Exclusive-Owner Cell is destroyed, every
BackgroundTag operation returns an error rather than blocking (the
flattened cell-gone error, whatever `crate::Error` variant the absent
conversion picks); at the underlying Tag layer the cell-gone failure is
reported exactly when the cell is gone, as the outer layer of a result
whose distinct inner layer carries the caller-supplied failure — but
the public BackgroundTag methods flatten both layers into the single
`crate::Error`, which has no ActorGone variant: whatever variant the
flattening assigns, a live-cell mutation whose caller-supplied closure
fails with that same value returns an identical result. -/
theorem c9_amended_tag_gone_flattened (conv : ActorGone → Error)
    (cell : Cell Background) (c : Nat) (sz : Vector2)
    (f : Background → Except Error (Unit × Background)) :
    (BackgroundTag.color conv none = Except.error (conv ActorGone.actorGone)) ∧
    (BackgroundTag.set_color conv none c =
      Except.error (conv ActorGone.actorGone)) ∧
    (BackgroundTag.set_size conv none sz =
      Except.error (conv ActorGone.actorGone)) ∧
    (Tag.mutate cell f = Except.error ActorGone.actorGone ↔ cell = none) ∧
    (Tag.read cell (fun v => v.color) = Except.error ActorGone.actorGone ↔
      cell = none) ∧
    (BackgroundTag.set_color conv none c =
      flatten2 conv (Tag.mutate (some initialBackground)
        (fun _ => Except.error (conv ActorGone.actorGone)))) := by
  refine ⟨rfl, rfl, rfl, ?_, ?_, rfl⟩ <;> cases cell <;> simp [Tag.mutate, Tag.read]

end Wag
